import Mathlib

/-!
Verification of the eventuate-client-nodejs subscription client.

The development shallowly embeds the code of src/modules/EventuateClient.js:
its event-validation routine (checkEvents), its inbound-message handling
(makeEvent and the message callback), its connection / reconnection state
machine (connectToStompServer, the stomp event handlers, disconnect), its
receipt bookkeeping (addReceipt, the receipt handler, the reconnect failure
loop) and the acknowledge closure returned by subscribe.

Two collaborating modules of the repository are referenced by the code but
their sources are not part of the provided tree: the AckOrderTracker
(src/modules/stomp/AckOrderTracker) and the Encryption codec
(src/modules/Encryption, exercised by test/Encryption-spec.js).  Those two
are modelled from the natural-language specification, as marked on their
definitions.

JavaScript platform primitives (JSON.parse, the AES block cipher of the
crypto module) are not repository code; they enter the embedding as explicit
function parameters, so the theorems quantify over every parser / block
cipher with the documented properties.  Machine-level JS value semantics
(truthiness, Object.keys, JSON.parse coercion of non-string arguments) are
embedded explicitly on a JSON-style value type.
-/

/-! ## A model of JavaScript/JSON values

JS values flowing through the client are JSON-shaped: null, booleans,
numbers, strings, arrays and objects.  Objects are modelled as association
lists with distinct keys (JS objects cannot carry duplicate keys). -/

inductive Json where
  | null : Json
  | bool : Bool → Json
  | num : Int → Json
  | str : String → Json
  | arr : List Json → Json
  | obj : List (String × Json) → Json

/-- JS truthiness of a value: null, false, 0 and the empty string are falsy;
every array and object (even empty ones) is truthy. -/
def truthy : Json → Bool
  | Json.null => false
  | Json.bool b => b
  | Json.num n => n != 0
  | Json.str s => !s.isEmpty
  | Json.arr _ => true
  | Json.obj _ => true

/-- Truthiness of a possibly-absent (undefined) value. -/
def truthyOpt : Option Json → Bool
  | none => false
  | some j => truthy j

/-- Number of enumerable own keys, as Object.keys(v).length computes it:
object fields, array indices, string character indices; zero for numbers and
booleans; Object.keys(null) throws a TypeError (modelled as Except.error). -/
def keysCount : Json → Except Unit Nat
  | Json.null => Except.error ()
  | Json.bool _ => Except.ok 0
  | Json.num _ => Except.ok 0
  | Json.str s => Except.ok s.length
  | Json.arr xs => Except.ok xs.length
  | Json.obj fs => Except.ok fs.length

/-- Field lookup on an object value; undefined (none) on every other value,
matching JS property access on non-objects used by the client. -/
def lookupField : List (String × Json) → String → Option Json
  | [], _ => none
  | (k, v) :: rest, key => if k = key then some v else lookupField rest key

/-! ## checkEvents (EventuateClient.js lines 566-602)

An element of the events argument, after the destructuring
`(\x7b eventType, eventData \x7d)` performed by the source; a missing field is
`none` (JS undefined). -/

structure EventRecord where
  eventType : Option Json
  eventData : Option Json

/-- One iteration of the events.every callback of checkEvents
(EventuateClient.js lines 572-601): reject falsy eventType/eventData;
JSON.parse a string eventData (a parse failure is caught and rejects);
copy an object eventData; reject any other type; finally reject when
Object.keys reports no keys.  Object.keys(null) - reached for a string
eventData whose JSON text is "null" - throws out of the callback.
The JSON.parse primitive is the parameter parse. -/
def elemEval (parse : String → Option Json) (e : EventRecord) : Except Unit Bool :=
  if !(truthyOpt e.eventType) || !(truthyOpt e.eventData) then Except.ok false
  else
    match e.eventData with
    | some (Json.str s) =>
      match parse s with
      | none => Except.ok false
      | some ed =>
        match keysCount ed with
        | Except.error u => Except.error u
        | Except.ok 0 => Except.ok false
        | Except.ok (_ + 1) => Except.ok true
    | some (Json.obj fs) => Except.ok (fs.length != 0)
    | some (Json.arr xs) => Except.ok (xs.length != 0)
    | _ => Except.ok false

/-- events.every applied to elemEval: elements are checked left to right and
checking stops at the first false or thrown error. -/
def checkEventsGo (parse : String → Option Json) : List EventRecord → Except Unit Bool
  | [] => Except.ok true
  | e :: rest =>
    match elemEval parse e with
    | Except.error u => Except.error u
    | Except.ok false => Except.ok false
    | Except.ok true => checkEventsGo parse rest

/-- checkEvents (EventuateClient.js lines 566-602): false for an empty
array, otherwise events.every over the per-element check. -/
def checkEvents (parse : String → Option Json) (events : List EventRecord) : Except Unit Bool :=
  if events.isEmpty then Except.ok false else checkEventsGo parse events

/-- Concrete values of the platform JSON.parse on the handful of strings the
concrete theorems below use; each line agrees with what JSON.parse returns
(or that it throws, yielding none) on that exact string. -/
def parseFix : String → Option Json := fun s =>
  if s = "\"abc\"" then some (Json.str "abc")
  else if s = "null" then some Json.null
  else if s = "\x7b\x7d" then some (Json.obj [])
  else if s = "\x7b\"a\":1\x7d" then some (Json.obj [("a", Json.num 1)])
  else if s = "\x7b\"eventType\":\"T\",\"eventData\":\"\x7b\\\"a\\\":1\x7d\"\x7d" then
    some (Json.obj [("eventType", Json.str "T"), ("eventData", Json.str "\x7b\"a\":1\x7d")])
  else none

/-! ## AckOrderTracker and the acknowledge closure

The AckOrderTracker implementation (src/modules/stomp/AckOrderTracker) is not
part of the provided sources; the definitions below are modelled from the
specification, section 4.3. -/

/-- Modelled from the spec: the per-subscriber state of the missing
AckOrderTracker module - an arrival-ordered queue of (token, completed)
entries. -/
abbrev AckQueue := List (String × Bool)

/-- Modelled from the spec: AckOrderTracker.add appends the token with
completed = false to the tail of the queue.  -/
def AckOrderTracker.add (q : AckQueue) (t : String) : AckQueue :=
  q ++ [(t, false)]

/-- Modelled from the spec: AckOrderTracker.ack marks the matching entry
completed (a no-op for an unknown token - nothing is inserted), then removes
the contiguously completed entries at the head of the queue and returns their
tokens in original arrival order; scanning stops at the first entry that is
not yet completed.  Returns (released tokens, remaining queue). -/
def AckOrderTracker.ack (q : AckQueue) (t : String) : List String × AckQueue :=
  ((q.map (fun e => if e.1 = t then (t, true) else e)).takeWhile (fun e => e.2)
      |>.map (fun e => e.1),
   (q.map (fun e => if e.1 = t then (t, true) else e)).dropWhile (fun e => e.2))

/-- Operations an application can perform on one subscriber's tracker. -/
inductive AckOp where
  | add : String → AckOp
  | ack : String → AckOp

/-- Runs a sequence of tracker operations from a given queue and an
accumulator of every token released so far (in release order). -/
def runOps : List AckOp → AckQueue → List String → AckQueue × List String
  | [], q, rel => (q, rel)
  | AckOp.add t :: ops, q, rel => runOps ops (AckOrderTracker.add q t) rel
  | AckOp.ack t :: ops, q, rel =>
    runOps ops (AckOrderTracker.ack q t).2 (rel ++ (AckOrderTracker.ack q t).1)

/-- The tokens of an operation sequence in arrival order. -/
def arrivals (ops : List AckOp) : List String :=
  ops.filterMap (fun op => match op with | AckOp.add t => some t | AckOp.ack _ => none)

/-- The acknowledge closure returned by subscribe (EventuateClient.js lines
233-238): ackOrderTracker.ack(token) runs first; then the member access
this.stompClient.ack is evaluated - a TypeError when stompClient is null,
even when the release list is empty - and otherwise every released token is
forwarded, in the returned order, to the low-level stompClient.ack call
(modelled by appending to ackLog).  The tracker mutation survives either
way, so the queue is returned alongside the outcome. -/
def acknowledge (stompClient : Option Unit) (q : AckQueue) (ackLog : List String)
    (token : String) : AckQueue × Except String (List String) :=
  match stompClient with
  | none => ((AckOrderTracker.ack q token).2, Except.error "TypeError: Cannot read property ack of null")
  | some _ => ((AckOrderTracker.ack q token).2, Except.ok (ackLog ++ (AckOrderTracker.ack q token).1))

/-! ## The connection / subscription state machine
(EventuateClient.js constructor lines 39-48, connectToStompServer lines
320-400, reconnectStompServer lines 402-432, addReceipt lines 434-443,
subscribe lines 216-244, disconnect lines 456-471). -/

/-- Status of a JS promise. -/
inductive PStatus where
  | pending : PStatus
  | resolved : PStatus
  | rejected : PStatus
deriving DecidableEq

/-- Outcome with which a pending-receipt callback is invoked: success is the
receipt confirmation, failure the transport error of a failed reconnect. -/
inductive Outcome where
  | success : Outcome
  | failure : Outcome
deriving DecidableEq

/-- A stored subscription (EventuateClient.js lines 308-317).  The
destination string built by escapeStr/JSON.stringify is not modelled; no
claim depends on its text. -/
structure Subscription where
  subscriberId : String
  entityTypesAndEvents : List (String × List String)
  headerId : String
  headerReceipt : String
deriving DecidableEq

/-- The mutable fields of an EventuateClient instance, plus observation
logs: scheduledDelays records the argument of every reconnectStompServer
(setTimeout) call, connectAttempts counts Stomp client creations, and
callbackLog records every invocation of a stored clientSubscribeCallback.
Promises are identified by the counter value at their creation;
promStatus records each promise's current status. -/
structure ClientState where
  subscriptions : List (String × Subscription)
  receipts : List String
  reconnectInterval : Nat
  reconnectIntervalStart : Nat
  stompClient : Option Unit
  connectionCount : Nat
  connPromise : Option Nat
  promiseCounter : Nat
  promStatus : List (Nat × PStatus)
  closed : Bool
  scheduledDelays : List Nat
  connectAttempts : Nat
  callbackLog : List (String × Outcome)
deriving DecidableEq

/-- The state established by the constructor (EventuateClient.js lines
39-48): empty tables, both interval fields 500, no stomp client, no
connection promise, not closed. -/
def initialClientState : ClientState :=
  { subscriptions := [], receipts := [], reconnectInterval := 500,
    reconnectIntervalStart := 500, stompClient := none, connectionCount := 0,
    connPromise := none, promiseCounter := 0, promStatus := [], closed := false,
    scheduledDelays := [], connectAttempts := 0, callbackLog := [] }

/-- connectToStompServer (lines 320-400): returns the memoized promise when
one is stored; otherwise creates a fresh promise - immediately rejected
(with no error value) when the client is closed, or pending with a new Stomp
client and connection attempt otherwise.  Result: (promise id, new state,
whether a new underlying connection attempt was started). -/
def connectToStompServer (s : ClientState) : Nat × ClientState × Bool :=
  match s.connPromise with
  | some pid => (pid, s, false)
  | none =>
    if s.closed then
      (s.promiseCounter,
       { s with connPromise := some s.promiseCounter,
                promiseCounter := s.promiseCounter + 1,
                promStatus := (s.promiseCounter, PStatus.rejected) :: s.promStatus },
       false)
    else
      (s.promiseCounter,
       { s with connPromise := some s.promiseCounter,
                promiseCounter := s.promiseCounter + 1,
                promStatus := (s.promiseCounter, PStatus.pending) :: s.promStatus,
                stompClient := some (),
                connectAttempts := s.connectAttempts + 1 },
       true)

/-- Overwrites the status of one promise. -/
def setPromStatus (l : List (Nat × PStatus)) (pid : Nat) (st : PStatus) :
    List (Nat × PStatus) :=
  l.map (fun e => if e.1 = pid then (pid, st) else e)

/-- Status lookup for a promise id. -/
def promStatusOf : List (Nat × PStatus) → Nat → Option PStatus
  | [], _ => none
  | (k, v) :: rest, pid => if k = pid then some v else promStatusOf rest pid

/-- The socketConnected handler (lines 341-345): reset the backoff interval
to its floor. -/
def onSocketConnected (s : ClientState) : ClientState :=
  { s with reconnectInterval := s.reconnectIntervalStart }

/-- The connected handler (lines 347-351): resolve the in-flight promise and
bump connectionCount. -/
def onConnected (s : ClientState) : ClientState :=
  match s.connPromise with
  | some pid =>
    { s with promStatus := setPromStatus s.promStatus pid PStatus.resolved,
             connectionCount := s.connectionCount + 1 }
  | none => { s with connectionCount := s.connectionCount + 1 }

/-- The disconnected handler (lines 353-367): clear the stomp client and the
memoized promise; unless closed, double the interval when it is still below
16000 and schedule a reconnect after the (already doubled) interval - the
scheduled delay is recorded in scheduledDelays. -/
def onDisconnected (s : ClientState) : ClientState :=
  if s.closed then { s with stompClient := none, connPromise := none }
  else
    { s with stompClient := none, connPromise := none,
             reconnectInterval :=
               if s.reconnectInterval < 16000 then s.reconnectInterval * 2
               else s.reconnectInterval,
             scheduledDelays := s.scheduledDelays ++
               [if s.reconnectInterval < 16000 then s.reconnectInterval * 2
                else s.reconnectInterval] }

/-- Applies the disconnected handler k times (k successive failures, each
drop following the scheduled reconnect attempt). -/
def disconnects : Nat → ClientState → ClientState
  | 0, s => s
  | k + 1, s => disconnects k (onDisconnected s)

/-- The doubling-with-cap of the disconnected handler, as a function of the
stored interval. -/
def backoffStep (i : Nat) : Nat := if i < 16000 then i * 2 else i

/-- The interval stored after j disconnections starting from the 500 floor
(closed form proved below). -/
def backoffAt (j : Nat) : Nat := min (500 * 2 ^ j) 16000

/-- The receipt handler (lines 386-392): when the receipt id is known, its
clientSubscribeCallback is invoked with success.  No entry is removed. -/
def onReceipt (s : ClientState) (receiptId : String) : ClientState :=
  if receiptId ∈ s.receipts then
    { s with callbackLog := s.callbackLog ++ [(receiptId, Outcome.success)] }
  else s

/-- The error branch of reconnectStompServer (lines 419-428): when the
reconnect attempt fails, the clientSubscribeCallback of every entry of the
receipts table is invoked with the error, in table order.  No entry is
removed. -/
def reconnectStompServerFailure (s : ClientState) : ClientState :=
  { s with callbackLog := s.callbackLog ++ s.receipts.map (fun r => (r, Outcome.failure)) }

/-- addReceipt (lines 434-443): registers the callback under the receipt id,
creating the entry if absent (re-registration overwrites the callback and
adds no entry). -/
def addReceipt (s : ClientState) (receipt : String) : ClientState :=
  if receipt ∈ s.receipts then s else { s with receipts := s.receipts ++ [receipt] }

/-- Overwrite-or-insert for the subscriptions table keyed by subscriberId. -/
def setSubscription : List (String × Subscription) → String → Subscription →
    List (String × Subscription)
  | [], key, v => [(key, v)]
  | (k, old) :: rest, key, v =>
    if k = key then (key, v) :: rest else (k, old) :: setSubscription rest key v

/-- addSubscription (lines 277-318): derive the id/receipt pair from the
fresh unique id, record the pending receipt, store the Subscription keyed by
subscriberId (overwriting a previous one). -/
def addSubscription (s : ClientState) (subscriberId : String)
    (entityTypesAndEvents : List (String × List String)) (uniqueId : String) :
    ClientState :=
  let s1 := addReceipt s ("receipt-id-" ++ uniqueId)
  let sub : Subscription :=
    { subscriberId := subscriberId,
      entityTypesAndEvents := entityTypesAndEvents,
      headerId := "subscription-id-" ++ uniqueId,
      headerReceipt := "receipt-id-" ++ uniqueId }
  { s1 with subscriptions := setSubscription s1.subscriptions subscriberId sub }

/-- subscribe (lines 216-244): empty subscriberId or an
entityTypesAndEvents object with no keys fails synchronously with the
validation error, touching neither the tables nor the connection.  On valid
input the source defers registration and connection until the returned
observable is subscribed (observableCreateAndSubscribe, lines 246-274);
that deferred step is inlined here. -/
def subscribe (s : ClientState) (subscriberId : String)
    (entityTypesAndEvents : List (String × List String)) (uniqueId : String) :
    ClientState × Except String Unit :=
  if subscriberId = "" ∨ entityTypesAndEvents = [] then
    (s, Except.error "Incorrect input parameters")
  else
    ((connectToStompServer (addSubscription s subscriberId entityTypesAndEvents uniqueId)).2.1,
     Except.ok ())

/-- disconnect (lines 456-471): an invariant violation without a prior
connection promise; otherwise marks the client closed.  The best-effort
transport disconnect only asks the broker to drop the socket; the
disconnected event arrives separately, so connPromise is not cleared
here. -/
def disconnect (s : ClientState) : Except String ClientState :=
  match s.connPromise with
  | none => Except.error "Disconnect without connection promise spotted."
  | some _ => Except.ok { s with closed := true }

/-! ## Inbound message handling (observableCreateAndSubscribe lines 246-274,
makeEvent lines 473-496) -/

/-- The event object makeEvent builds: the fields destructured from the
parsed JSON text (absent fields are none / JS undefined), the parsed
eventData, and the delivery token taken from the frame's ack header. -/
structure MadeEvent where
  eventId : Option Json
  eventType : Option Json
  entityId : Option Json
  swimlane : Option Json
  eventData : Json
  eventToken : Option Json
  ack : String

/-- JSON.parse applied to a possibly-non-string JS value, as the source does
on the destructured eventData field: the argument is coerced to a string
first, so null, booleans and numbers parse back to themselves, while
undefined and objects produce text that fails to parse (arrays are also
modelled as failing; the JS corner case of a single-element numeric array is
outside the modelled fragment). -/
def jsonParseCoerce (parse : String → Option Json) : Option Json → Option Json
  | some (Json.str s) => parse s
  | some Json.null => some Json.null
  | some (Json.bool b) => some (Json.bool b)
  | some (Json.num n) => some (Json.num n)
  | _ => none

/-- Field access on the parsed event value, as JS destructuring performs it:
a lookup on objects, undefined on any other non-null value. -/
def jsField : Json → String → Option Json
  | Json.obj fs, key => lookupField fs key
  | _, _ => none

/-- makeEvent (lines 473-496): JSON.parse the event string (destructuring a
null result throws - both failures are caught and returned as the error
case), JSON.parse the eventData field, and on success return the event
carrying the frame's delivery token in its ack field. -/
def makeEvent (parse : String → Option Json) (eventStr : String) (ack : String) :
    Except String MadeEvent :=
  match parse eventStr with
  | none => Except.error "event JSON parse error"
  | some Json.null => Except.error "TypeError: cannot destructure null"
  | some j =>
    match jsonParseCoerce parse (jsField j "eventData") with
    | none => Except.error "eventData JSON parse error"
    | some eventData =>
      Except.ok
        { eventId := jsField j "id", eventType := jsField j "eventType",
          entityId := jsField j "entityId", swimlane := jsField j "swimlane",
          eventData := eventData, eventToken := jsField j "eventToken", ack := ack }

/-- The state of the Rx observer feeding the subscriber's event sequence.
Rx wraps the observer so that after onError the sequence is stopped: any
later onNext or onError call is ignored. -/
structure ObserverState where
  emitted : List MadeEvent
  terminated : Option String

/-- observer.onNext under the Rx grammar: append the event unless the
sequence has terminated. -/
def Observer.onNext (o : ObserverState) (e : MadeEvent) : ObserverState :=
  match o.terminated with
  | some _ => o
  | none => { o with emitted := o.emitted ++ [e] }

/-- observer.onError under the Rx grammar: terminate the sequence with the
first error; later calls are ignored. -/
def Observer.onError (o : ObserverState) (err : String) : ObserverState :=
  match o.terminated with
  | some _ => o
  | none => { o with terminated := some err }

/-- The body.forEach loop of the message callback (lines 254-263): each raw
record is decoded with makeEvent in order; a decode failure calls
observer.onError, a success calls observer.onNext.  The JS forEach keeps
iterating after the failure, but the terminated observer ignores the later
calls. -/
def processBody (parse : String → Option Json) (ack : String) :
    ObserverState → List String → ObserverState
  | o, [] => o
  | o, s :: rest =>
    match makeEvent parse s ack with
    | Except.error e => processBody parse ack (Observer.onError o e) rest
    | Except.ok ev => processBody parse ack (Observer.onNext o ev) rest

/-- The messageCallback of observableCreateAndSubscribe (lines 250-264): the
frame's ack token is registered with the AckOrderTracker first, before any
record of the body is decoded, then the body records are processed in
order. -/
def messageCallback (parse : String → Option Json) (q : AckQueue)
    (o : ObserverState) (body : List String) (headersAck : String) :
    AckQueue × ObserverState :=
  (AckOrderTracker.add q headersAck, processBody parse headersAck o body)

/-- The successfully decoded records before the first decode failure. -/
def oksBeforeFirstError : List (Except String MadeEvent) → List MadeEvent
  | [] => []
  | Except.ok e :: rest => e :: oksBeforeFirstError rest
  | Except.error _ :: _ => []

/-- The first decode error of the frame, when one occurs. -/
def firstDecodeError : List (Except String MadeEvent) → Option String
  | [] => none
  | Except.ok _ :: rest => firstDecodeError rest
  | Except.error e :: _ => some e

/-! ## Encryption codec

The Encryption module (src/modules/Encryption) is not part of the provided
sources - only its test spec is; the definitions below are modelled from the
specification, section 4.4: a symmetric block cipher in CBC mode with
standard block padding, wrapped in a key-id-carrying envelope.  Plaintexts,
keys, IVs and ciphertexts are byte lists; the underlying block permutation
(the platform AES primitive) is a parameter. -/

/-- Modelled from the spec: the cipher block size in bytes. -/
def blockSize : Nat := 16

/-- Modelled from the spec: standard (PKCS#7 style) block padding - append
p copies of the byte p, where p is the distance to the next block
boundary (a full extra block when already aligned). -/
def padBytes (m : List Nat) : List Nat :=
  m ++ List.replicate (blockSize - m.length % blockSize) (blockSize - m.length % blockSize)

/-- Modelled from the spec: removal of the block padding - the last byte
tells how many bytes to strip; nonsensical padding fails. -/
def unpadBytes (m : List Nat) : Option (List Nat) :=
  match m.getLast? with
  | none => none
  | some p => if 1 ≤ p ∧ p ≤ m.length then some (m.take (m.length - p)) else none

/-- Splits a byte list into blockSize-byte chunks (the last chunk may be
shorter when the length is not aligned; cipher inputs are always padded to a
multiple of blockSize first). -/
def chunksOf16 (l : List Nat) : List (List Nat) :=
  if l = [] then [] else l.take blockSize :: chunksOf16 (l.drop blockSize)
termination_by l.length
decreasing_by
  simp only [List.length_drop]
  have hpos : 0 < l.length := List.length_pos.mpr (by assumption)
  simp [blockSize]
  omega

/-- Bytewise xor of two equal-length blocks. -/
def lxor (a b : List Nat) : List Nat := List.zipWith Nat.xor a b

/-- Modelled from the spec: CBC encryption - each plaintext block is xored
with the previous ciphertext block (the IV for the first) and sent through
the keyed block permutation E. -/
def cbcEnc (E : List Nat → List Nat → List Nat) (key : List Nat) :
    List Nat → List (List Nat) → List (List Nat)
  | _, [] => []
  | prev, b :: bs =>
    E key (lxor b prev) :: cbcEnc E key (E key (lxor b prev)) bs

/-- Modelled from the spec: CBC decryption - each ciphertext block is sent
through the inverse permutation D and xored with the previous ciphertext
block (the IV for the first). -/
def cbcDec (D : List Nat → List Nat → List Nat) (key : List Nat) :
    List Nat → List (List Nat) → List (List Nat)
  | _, [] => []
  | prev, c :: cs => lxor (D key c) prev :: cbcDec D key c cs

/-- Modelled from the spec: cipher(secret, iv, text) - pad, chunk into
blocks, CBC-encrypt and concatenate. -/
def cipher (E : List Nat → List Nat → List Nat) (key iv text : List Nat) : List Nat :=
  (cbcEnc E key iv (chunksOf16 (padBytes text))).flatten

/-- Modelled from the spec: decipher(secret, iv, ciphertext) - chunk,
CBC-decrypt, concatenate and strip the padding; corrupt padding fails. -/
def decipher (D : List Nat → List Nat → List Nat) (key iv ct : List Nat) :
    Option (List Nat) :=
  unpadBytes (cbcDec D key iv (chunksOf16 ct)).flatten

/-- Modelled from the spec: the EncryptionEnvelope - key id, ciphertext and
the optional salt/IV (absent on legacy payloads).  The envelope is studied
structurally; its prefixMarker+JSON serialization carries exactly these
fields. -/
structure EncryptionEnvelope where
  encryptionKeyId : String
  data : List Nat
  salt : Option (List Nat)

/-- Modelled from the spec: the fixed legacy IV used when an envelope has no
salt field; its exact historical value is an open question of the spec and
no theorem below depends on it. -/
def legacyIV : List Nat := List.replicate blockSize 0

/-- Modelled from the spec: findKey resolves the key id through the external
key store and fails with KeyNotFound when the store has no secret for it. -/
def findKey (store : String → Option (List Nat)) (keyId : String) :
    Except String (List Nat) :=
  match store keyId with
  | none => Except.error "KeyNotFound"
  | some secret => Except.ok secret

/-- Modelled from the spec: encrypt(keyId, text) - resolve the key
(propagating KeyNotFound), cipher the plaintext under the fresh salt (the
salt is a parameter here: the source draws it from the platform randomness)
and return the envelope carrying key id, ciphertext and salt. -/
def encrypt (E : List Nat → List Nat → List Nat)
    (store : String → Option (List Nat)) (keyId : String) (salt text : List Nat) :
    Except String EncryptionEnvelope :=
  match findKey store keyId with
  | Except.error e => Except.error e
  | Except.ok secret => Except.ok
      { encryptionKeyId := keyId, data := cipher E secret salt text, salt := some salt }

/-- Modelled from the spec: decrypt(envelope) - resolve the key (propagating
KeyNotFound), pick the envelope's salt as IV (the legacy constant when
absent) and decipher; a padding failure is a CipherError. -/
def decrypt (D : List Nat → List Nat → List Nat)
    (store : String → Option (List Nat)) (env : EncryptionEnvelope) :
    Except String (List Nat) :=
  match findKey store env.encryptionKeyId with
  | Except.error e => Except.error e
  | Except.ok secret =>
    match decipher D secret (env.salt.getD legacyIV) env.data with
    | none => Except.error "CipherError"
    | some text => Except.ok text

/-! ## Concrete states used by the counterexamples and witnesses -/

/-- State after the first connectToStompServer call on a fresh client. -/
def c3s1 : ClientState := (connectToStompServer initialClientState).2.1

/-- State after the connected event resolves the first promise. -/
def c3s2 : ClientState := onConnected c3s1

/-- State right after disconnect(): closed, but the resolved connection
promise is still stored (the disconnected event has not arrived yet). -/
def c3s3 : ClientState := { c3s2 with closed := true }

/-- A client with one recorded receipt whose confirmation has arrived. -/
def c4s2 : ClientState := onReceipt (addReceipt initialClientState "receipt-id-1") "receipt-id-1"

/-- The same client after a reconnect attempt fails. -/
def c4s3 : ClientState := reconnectStompServerFailure c4s2

/-- A client with one recorded receipt whose confirmation has arrived
(trace for the pending-receipt lifecycle claim). -/
def c5s2 : ClientState := onReceipt (addReceipt initialClientState "receipt-id-2") "receipt-id-2"

/-- A client state whose stored connection promise is the promise number 5,
used to exercise the memoization branch at a concrete input. -/
def c3wState : ClientState := { initialClientState with connPromise := some 5 }

/-- A closed client with no stored promise (the disconnected event has been
processed after close). -/
def c3wClosed : ClientState := { initialClientState with closed := true }

/-! ## Theorems -/

theorem checkEventsGo_ok_true_iff (parse : String → Option Json) :
    ∀ l : List EventRecord,
      checkEventsGo parse l = Except.ok true ↔ ∀ e ∈ l, elemEval parse e = Except.ok true := by
  intro l
  induction l with
  | nil => simp [checkEventsGo]
  | cons e rest ih =>
    cases h : elemEval parse e with
    | error u => simp [checkEventsGo, h]
    | ok b =>
      cases b with
      | false => simp [checkEventsGo, h]
      | true => simp [checkEventsGo, h, ih]

/-- C8 (corrected): checkEvents(events) returns true exactly when events is a
non-empty array and every element passes the per-element check elemEval -
truthy eventType and truthy eventData that either is an object/array with at
least one enumerable key, or is a string parsing as JSON into a value with at
least one enumerable key; elements are checked in order.  (The original
claim further said every other input returns false; the counterexample shows
a string eventData whose JSON value is a non-empty string is accepted, and
one parsing to JSON null makes the call throw.) -/
theorem c8_checkEvents_amended (parse : String → Option Json) (events : List EventRecord) :
    checkEvents parse events = Except.ok true ↔
      (events ≠ [] ∧ ∀ e ∈ events, elemEval parse e = Except.ok true) := by
  cases events with
  | nil => simp [checkEvents]
  | cons e rest => simp [checkEvents, checkEventsGo_ok_true_iff]

/-- C8 counterexample: with eventType "T" and eventData the string "abc"
quoted as JSON text (which JSON.parse turns into the non-empty string abc,
not an object), checkEvents returns true, where the claim requires false;
and with eventData the JSON text null, the call throws out of Object.keys
instead of returning false. -/
theorem c8_counterexample :
    checkEvents parseFix [⟨some (Json.str "T"), some (Json.str "\"abc\"")⟩] = Except.ok true
    ∧ (Except.ok true : Except Unit Bool) ≠ Except.ok false
    ∧ checkEvents parseFix [⟨some (Json.str "T"), some (Json.str "null")⟩] = Except.error ()
    ∧ (Except.error () : Except Unit Bool) ≠ Except.ok false := by
  refine ⟨rfl, by simp, rfl, by simp⟩

theorem ack_tokens_eq (q : AckQueue) (t : String) :
    (AckOrderTracker.ack q t).1 ++ (AckOrderTracker.ack q t).2.map (fun e => e.1) =
      q.map (fun e => e.1) := by
  unfold AckOrderTracker.ack
  rw [← List.map_append, List.takeWhile_append_dropWhile, List.map_map]
  apply List.map_congr_left
  intro e _
  by_cases h : e.1 = t
  · simp [h]
  · simp [h]

theorem runOps_tokens (ops : List AckOp) :
    ∀ (q : AckQueue) (rel : List String),
      (runOps ops q rel).2 ++ (runOps ops q rel).1.map (fun e => e.1) =
        (rel ++ q.map (fun e => e.1)) ++ arrivals ops := by
  induction ops with
  | nil => intro q rel; simp [runOps, arrivals]
  | cons op ops ih =>
    intro q rel
    cases op with
    | add t =>
      rw [show runOps (AckOp.add t :: ops) q rel = runOps ops (AckOrderTracker.add q t) rel
            from rfl, ih]
      simp [AckOrderTracker.add, arrivals, List.filterMap_cons]
    | ack t =>
      rw [show runOps (AckOp.ack t :: ops) q rel =
            runOps ops (AckOrderTracker.ack q t).2 (rel ++ (AckOrderTracker.ack q t).1)
            from rfl, ih]
      have h := ack_tokens_eq q t
      rw [List.append_assoc rel, h]
      simp [arrivals, List.filterMap_cons]

/-- C2 (confirmed, tracker modelled from the spec): over every operation
sequence, the tokens released so far followed by the tokens still queued are
exactly the arrivals in order - so the released tokens are always a prefix
of the arrival order and no token is released before every earlier-arrived
token; the add t1, add t2, add t3, ack t2 / ack t1 / ack t3 example returns
[], [t1, t2], [t3]; and the acknowledge closure forwards exactly the
returned release list, in order, to the stomp client ack. -/
theorem c2_ack_order :
    (∀ ops : List AckOp,
        (runOps ops [] []).2 ++ (runOps ops [] []).1.map (fun e => e.1) = arrivals ops)
    ∧ (∀ ops : List AckOp, ∃ buffered, arrivals ops = (runOps ops [] []).2 ++ buffered)
    ∧ AckOrderTracker.ack
        (AckOrderTracker.add (AckOrderTracker.add (AckOrderTracker.add [] "t1") "t2") "t3") "t2"
        = ([], [("t1", false), ("t2", true), ("t3", false)])
    ∧ AckOrderTracker.ack [("t1", false), ("t2", true), ("t3", false)] "t1"
        = (["t1", "t2"], [("t3", false)])
    ∧ AckOrderTracker.ack [("t3", false)] "t3" = (["t3"], [])
    ∧ (∀ (q : AckQueue) (ackLog : List String) (t : String),
        acknowledge (some ()) q ackLog t =
          ((AckOrderTracker.ack q t).2, Except.ok (ackLog ++ (AckOrderTracker.ack q t).1))) := by
  have hmain : ∀ ops : List AckOp,
      (runOps ops [] []).2 ++ (runOps ops [] []).1.map (fun e => e.1) = arrivals ops := by
    intro ops
    simpa using runOps_tokens ops [] []
  refine ⟨hmain, ?_, by decide, by decide, by decide, fun q log t => rfl⟩
  intro ops
  exact ⟨(runOps ops [] []).1.map (fun e => e.1), (hmain ops).symm⟩

/-- C10 (confirmed): when the stomp client is null - as in the constructor
state and after every disconnected event - the acknowledge closure fails
with a TypeError for every token, even one whose release list is empty,
because this.stompClient.ack is read before forEach can run. -/
theorem c10_acknowledge_null_client :
    (∀ (q : AckQueue) (ackLog : List String) (t : String),
        acknowledge none q ackLog t =
          ((AckOrderTracker.ack q t).2,
           Except.error "TypeError: Cannot read property ack of null"))
    ∧ acknowledge none [] [] "t0" =
        ([], Except.error "TypeError: Cannot read property ack of null")
    ∧ (AckOrderTracker.ack ([] : AckQueue) "t0").1 = []
    ∧ initialClientState.stompClient = none
    ∧ (∀ s : ClientState, (onDisconnected s).stompClient = none) := by
  refine ⟨fun q log t => rfl, rfl, rfl, rfl, fun s => ?_⟩
  unfold onDisconnected
  split <;> rfl

theorem backoffAt_zero : backoffAt 0 = 500 := by
  simp [backoffAt]

theorem backoffStep_backoffAt (j : Nat) : backoffStep (backoffAt j) = backoffAt (j + 1) := by
  unfold backoffStep backoffAt
  by_cases h : 500 * 2 ^ j < 16000
  · have hx : 2 ^ j ≤ 16 := by
      have h5 : j ≤ 4 := by
        by_contra hj
        push_neg at hj
        have : 2 ^ 5 ≤ 2 ^ j := Nat.pow_le_pow_right (by norm_num) hj
        have h32 : (32 : Nat) ≤ 2 ^ j := by norm_num at this; omega
        omega
      calc 2 ^ j ≤ 2 ^ 4 := Nat.pow_le_pow_right (by norm_num) h5
        _ = 16 := by norm_num
    have hnext : 500 * 2 ^ (j + 1) ≤ 16000 := by
      have : 500 * 2 ^ (j + 1) = 1000 * 2 ^ j := by ring
      omega
    rw [Nat.min_eq_left (le_of_lt h), if_pos h, Nat.min_eq_left hnext]
    ring
  · push_neg at h
    have hnext : 16000 ≤ 500 * 2 ^ (j + 1) := by
      have h2 : 500 * 2 ^ j ≤ 500 * 2 ^ (j + 1) :=
        Nat.mul_le_mul_left 500 (Nat.pow_le_pow_right (by norm_num) (by omega))
      omega
    rw [Nat.min_eq_right h, if_neg (by omega), Nat.min_eq_right hnext]

theorem onDisconnected_closed_field (s : ClientState) (h : s.closed = false) :
    (onDisconnected s).closed = false := by
  unfold onDisconnected
  split <;> exact h

theorem onDisconnected_interval (s : ClientState) (h : s.closed = false) :
    (onDisconnected s).reconnectInterval = backoffStep s.reconnectInterval := by
  simp [onDisconnected, h, backoffStep]

theorem onDisconnected_delays (s : ClientState) (h : s.closed = false) :
    (onDisconnected s).scheduledDelays =
      s.scheduledDelays ++ [backoffStep s.reconnectInterval] := by
  simp [onDisconnected, h, backoffStep]

theorem disconnects_delays (k : Nat) :
    ∀ (s : ClientState) (j : Nat), s.closed = false → s.reconnectInterval = backoffAt j →
      (disconnects k s).scheduledDelays =
        s.scheduledDelays ++ (List.range k).map (fun m => backoffAt (j + 1 + m)) := by
  induction k with
  | zero => intro s j _ _; simp [disconnects]
  | succ k ih =>
    intro s j h1 h2
    have hc : (onDisconnected s).closed = false := onDisconnected_closed_field s h1
    have hi : (onDisconnected s).reconnectInterval = backoffAt (j + 1) := by
      rw [onDisconnected_interval s h1, h2, backoffStep_backoffAt]
    have hd : (onDisconnected s).scheduledDelays = s.scheduledDelays ++ [backoffAt (j + 1)] := by
      rw [onDisconnected_delays s h1, h2, backoffStep_backoffAt]
    rw [show disconnects (k + 1) s = disconnects k (onDisconnected s) from rfl]
    rw [ih (onDisconnected s) (j + 1) hc hi, hd]
    rw [List.append_assoc, List.range_succ_eq_map]
    simp only [List.map_cons, List.map_map, List.singleton_append, Nat.add_zero]
    congr 1
    congr 1
    apply List.map_congr_left
    intro m _
    show backoffAt (j + 1 + 1 + m) = backoffAt (j + 1 + Nat.succ m)
    congr 1
    omega

/-- C1 (corrected): after each disconnection that is not an explicit close a
reconnect is scheduled, but after the interval has already been doubled - so
the delays observed over k repeated failures following a reset are
1000, 2000, 4000, 8000, 16000, 16000, ... ms (doubling before scheduling,
capped at 16000, no jitter), not 500, 1000, ...; socketConnected resets the
stored interval to the 500 floor (making the next observed delay 1000); a
disconnection while closed schedules nothing. -/
theorem c1_backoff_amended (s : ClientState) (k : Nat)
    (h1 : s.closed = false) (h2 : s.reconnectInterval = 500)
    (h3 : s.reconnectIntervalStart = 500) :
    (disconnects k s).scheduledDelays =
        s.scheduledDelays ++ (List.range k).map (fun m => min (1000 * 2 ^ m) 16000)
    ∧ (onSocketConnected s).reconnectInterval = 500
    ∧ (∀ s2 : ClientState, s2.closed = true →
        (onDisconnected s2).scheduledDelays = s2.scheduledDelays) := by
  refine ⟨?_, by simp [onSocketConnected, h3], fun s2 h => by simp [onDisconnected, h]⟩
  rw [disconnects_delays k s 0 h1 (by rw [h2, backoffAt_zero])]
  congr 1
  apply List.map_congr_left
  intro m _
  show backoffAt (0 + 1 + m) = min (1000 * 2 ^ m) 16000
  unfold backoffAt
  congr 1
  ring

/-- Witness for c1_backoff_amended at the constructor state with seven
consecutive failures. -/
theorem c1_backoff_witness :
    (initialClientState.closed = false ∧ initialClientState.reconnectInterval = 500 ∧
      initialClientState.reconnectIntervalStart = 500) ∧
    ((disconnects 7 initialClientState).scheduledDelays =
        initialClientState.scheduledDelays ++
          (List.range 7).map (fun m => min (1000 * 2 ^ m) 16000)
      ∧ (onSocketConnected initialClientState).reconnectInterval = 500
      ∧ (∀ s2 : ClientState, s2.closed = true →
          (onDisconnected s2).scheduledDelays = s2.scheduledDelays)) :=
  ⟨⟨rfl, rfl, rfl⟩, c1_backoff_amended initialClientState 7 rfl rfl rfl⟩

/-- C1 counterexample: from the constructor state (backoff interval at its
500 floor, exactly as right after a socketConnected reset), the first
disconnection schedules its reconnect after 1000 ms, not after the 500 ms
the claim states as the first observed delay. -/
theorem c1_counterexample :
    (onDisconnected initialClientState).scheduledDelays = [1000]
    ∧ (onDisconnected initialClientState).scheduledDelays ≠ [500] := by
  constructor
  · rfl
  · decide

/-- C3 (corrected): connectToStompServer is memoized - while a promise is
stored (Connecting or Connected) every call returns the very same promise id
and state and starts no second attempt - and a call made when the manager is
closed and the stored promise has been cleared (by the disconnected event
that follows the close) creates an immediately rejected promise, with no
error value, without creating a stomp client. -/
theorem c3_connect_amended :
    (∀ (s : ClientState) (pid : Nat), s.connPromise = some pid →
        connectToStompServer s = (pid, s, false))
    ∧ (∀ s : ClientState, s.connPromise = none → s.closed = true →
        connectToStompServer s =
          (s.promiseCounter,
           { s with connPromise := some s.promiseCounter,
                    promiseCounter := s.promiseCounter + 1,
                    promStatus := (s.promiseCounter, PStatus.rejected) :: s.promStatus },
           false)
        ∧ (connectToStompServer s).2.1.stompClient = s.stompClient) := by
  constructor
  · intro s pid h
    simp [connectToStompServer, h]
  · intro s h1 h2
    constructor
    · simp [connectToStompServer, h1, h2]
    · simp [connectToStompServer, h1, h2]

/-- Witness for c3_connect_amended: the memoization branch at a state
holding promise 5, and the closed branch at a closed promise-free state. -/
theorem c3_connect_witness :
    (c3wState.connPromise = some 5 ∧ connectToStompServer c3wState = (5, c3wState, false))
    ∧ (c3wClosed.connPromise = none ∧ c3wClosed.closed = true ∧
        (connectToStompServer c3wClosed =
          (c3wClosed.promiseCounter,
           { c3wClosed with connPromise := some c3wClosed.promiseCounter,
                            promiseCounter := c3wClosed.promiseCounter + 1,
                            promStatus := (c3wClosed.promiseCounter, PStatus.rejected) ::
                              c3wClosed.promStatus },
           false)
         ∧ (connectToStompServer c3wClosed).2.1.stompClient = c3wClosed.stompClient)) :=
  ⟨⟨rfl, c3_connect_amended.1 c3wState 5 rfl⟩,
   ⟨rfl, rfl, c3_connect_amended.2 c3wClosed rfl rfl⟩⟩

/-- C3 counterexample: after connect, connected and close() - but before the
disconnected event clears the stored promise - a further connect() call
returns the stored, already resolved promise: it succeeds instead of
failing with a closed-state error, contradicting the claim that every call
made after the manager has been closed fails immediately. -/
theorem c3_counterexample :
    disconnect c3s2 = Except.ok c3s3
    ∧ c3s3.closed = true
    ∧ connectToStompServer c3s3 = (0, c3s3, false)
    ∧ promStatusOf c3s3.promStatus 0 = some PStatus.resolved
    ∧ promStatusOf c3s3.promStatus 0 ≠ some PStatus.rejected := by
  refine ⟨rfl, rfl, rfl, rfl, by decide⟩

/-- C4 (corrected): when a reconnect attempt fails, the completion callback
of every receipt recorded in the receipts table is invoked with the
transport failure, in table order - receipt confirmations never remove
entries, so already-confirmed subscribers are notified too; the table itself
is left unchanged. -/
theorem c4_reconnect_failure_amended (s : ClientState) :
    (reconnectStompServerFailure s).callbackLog =
        s.callbackLog ++ s.receipts.map (fun r => (r, Outcome.failure))
    ∧ (reconnectStompServerFailure s).receipts = s.receipts :=
  ⟨rfl, rfl⟩

/-- C4 counterexample: a receipt that has already been confirmed (its
callback was invoked with success by the receipt handler) is invoked again
with the failure when a reconnect attempt fails - the claim says confirmed
subscribers are not notified. -/
theorem c4_counterexample :
    c4s2.callbackLog = [("receipt-id-1", Outcome.success)]
    ∧ c4s3.callbackLog = [("receipt-id-1", Outcome.success), ("receipt-id-1", Outcome.failure)]
    ∧ ("receipt-id-1", Outcome.failure) ∈ c4s3.callbackLog := by
  refine ⟨rfl, rfl, by decide⟩

/-- C5 (corrected): a PendingReceipt is created when a subscribe request is
issued (addSubscription records the receipt id), and a matching receipt
confirmation or a reconnect failure invokes its callback - but no resolution
ever removes the entry from the table, so the callback can be invoked again
by any later confirmation or reconnect failure rather than exactly once. -/
theorem c5_receipts_amended (s : ClientState) (r subId uniqueId : String)
    (etae : List (String × List String)) :
    ("receipt-id-" ++ uniqueId) ∈ (addSubscription s subId etae uniqueId).receipts
    ∧ (onReceipt s r).receipts = s.receipts
    ∧ (onReceipt s r).callbackLog =
        s.callbackLog ++ (if r ∈ s.receipts then [(r, Outcome.success)] else [])
    ∧ (reconnectStompServerFailure s).receipts = s.receipts := by
  refine ⟨?_, ?_, ?_, rfl⟩
  · show ("receipt-id-" ++ uniqueId) ∈ (addReceipt s ("receipt-id-" ++ uniqueId)).receipts
    unfold addReceipt
    split
    · assumption
    · simp
  · unfold onReceipt
    split <;> rfl
  · unfold onReceipt
    split
    · rename_i h
      simp [h]
    · rename_i h
      simp [h]

/-- C5 counterexample: after the subscribe receipt receipt-id-2 is confirmed
(its callback invoked with success), the entry is still in the receipts
table - not removed as the claim states - and a subsequent reconnect failure
resolves it a second time. -/
theorem c5_counterexample :
    c5s2.receipts = ["receipt-id-2"]
    ∧ c5s2.receipts ≠ []
    ∧ c5s2.callbackLog = [("receipt-id-2", Outcome.success)]
    ∧ (reconnectStompServerFailure c5s2).callbackLog =
        [("receipt-id-2", Outcome.success), ("receipt-id-2", Outcome.failure)] := by
  refine ⟨rfl, by decide, rfl, rfl⟩

/-- C6 (confirmed): subscribe with an empty subscriberId or a filter with no
entity-type entry fails synchronously with the validation error, leaving the
state untouched - in particular no connection attempt is made and no stomp
client is created. -/
theorem c6_subscribe_validation (s : ClientState) (subscriberId uniqueId : String)
    (etae : List (String × List String))
    (h : subscriberId = "" ∨ etae = []) :
    subscribe s subscriberId etae uniqueId = (s, Except.error "Incorrect input parameters")
    ∧ (subscribe s subscriberId etae uniqueId).1.connectAttempts = s.connectAttempts
    ∧ (subscribe s subscriberId etae uniqueId).1.stompClient = s.stompClient := by
  have heq : subscribe s subscriberId etae uniqueId =
      (s, Except.error "Incorrect input parameters") := by
    unfold subscribe
    rw [if_pos h]
  exact ⟨heq, by rw [heq], by rw [heq]⟩

/-- Witness for c6_subscribe_validation: the empty subscriberId with a
non-empty filter. -/
theorem c6_subscribe_validation_witness :
    (("" : String) = "" ∨ ([("EntityA", ["Created"])] : List (String × List String)) = [])
    ∧ (subscribe initialClientState "" [("EntityA", ["Created"])] "u1" =
        (initialClientState, Except.error "Incorrect input parameters")
      ∧ (subscribe initialClientState "" [("EntityA", ["Created"])] "u1").1.connectAttempts =
          initialClientState.connectAttempts
      ∧ (subscribe initialClientState "" [("EntityA", ["Created"])] "u1").1.stompClient =
          initialClientState.stompClient) :=
  ⟨Or.inl rfl,
   c6_subscribe_validation initialClientState "" "u1" [("EntityA", ["Created"])] (Or.inl rfl)⟩

theorem onNext_stopped (o : ObserverState) (ev : MadeEvent) (err : String)
    (h : o.terminated = some err) : Observer.onNext o ev = o := by
  simp [Observer.onNext, h]

theorem onError_stopped (o : ObserverState) (e err : String)
    (h : o.terminated = some err) : Observer.onError o e = o := by
  simp [Observer.onError, h]

theorem processBody_stopped (parse : String → Option Json) (ack err : String) :
    ∀ (body : List String) (o : ObserverState), o.terminated = some err →
      processBody parse ack o body = o := by
  intro body
  induction body with
  | nil => intro o _; rfl
  | cons s rest ih =>
    intro o h
    cases hm : makeEvent parse s ack with
    | error e =>
      simp only [processBody, hm]
      rw [onError_stopped o e err h]
      exact ih o h
    | ok ev =>
      simp only [processBody, hm]
      rw [onNext_stopped o ev err h]
      exact ih o h

theorem processBody_open (parse : String → Option Json) (ack : String) :
    ∀ (body : List String) (o : ObserverState), o.terminated = none →
      (processBody parse ack o body).emitted =
          o.emitted ++ oksBeforeFirstError (body.map (fun s => makeEvent parse s ack))
      ∧ (processBody parse ack o body).terminated =
          firstDecodeError (body.map (fun s => makeEvent parse s ack)) := by
  intro body
  induction body with
  | nil =>
    intro o h
    simp [processBody, oksBeforeFirstError, firstDecodeError, h]
  | cons s rest ih =>
    intro o h
    cases hm : makeEvent parse s ack with
    | ok ev =>
      have hnext : Observer.onNext o ev = { o with emitted := o.emitted ++ [ev] } := by
        simp [Observer.onNext, h]
      have ht : (Observer.onNext o ev).terminated = none := by rw [hnext]; exact h
      obtain ⟨ih1, ih2⟩ := ih (Observer.onNext o ev) ht
      constructor
      · simp only [processBody, hm]
        rw [ih1, hnext]
        simp [oksBeforeFirstError, hm]
      · simp only [processBody, hm]
        rw [ih2]
        simp [firstDecodeError, hm]
    | error e =>
      have herr : Observer.onError o e = { o with terminated := some e } := by
        simp [Observer.onError, h]
      have hstop : processBody parse ack (Observer.onError o e) rest =
          { o with terminated := some e } := by
        rw [herr]
        exact processBody_stopped parse ack e rest { o with terminated := some e } rfl
      constructor
      · simp only [processBody, hm]
        rw [hstop]
        simp [oksBeforeFirstError, hm]
      · simp only [processBody, hm]
        rw [hstop]
        simp [firstDecodeError, hm]

/-- C7 (confirmed): for a frame addressed to a subscriber, the delivery
token is registered with the AckOrderTracker unconditionally - before and
independently of the decoding of any body record; the records are then
decoded in order, the events emitted are exactly the successful decodes
before the first failure, the sequence terminates with the first decode
error when there is one (and with nothing otherwise, no event after the
failure being delivered), and every successfully decoded event carries the
frame's delivery token in its ack field. -/
theorem c7_message_handling (parse : String → Option Json) (q : AckQueue)
    (o : ObserverState) (body : List String) (headersAck : String)
    (h : o.terminated = none) :
    (messageCallback parse q o body headersAck).1 = AckOrderTracker.add q headersAck
    ∧ (messageCallback parse q o body headersAck).2.emitted =
        o.emitted ++ oksBeforeFirstError (body.map (fun s => makeEvent parse s headersAck))
    ∧ (messageCallback parse q o body headersAck).2.terminated =
        firstDecodeError (body.map (fun s => makeEvent parse s headersAck))
    ∧ (∀ (s : String) (ev : MadeEvent),
        makeEvent parse s headersAck = Except.ok ev → ev.ack = headersAck) := by
  obtain ⟨h1, h2⟩ := processBody_open parse headersAck body o h
  refine ⟨rfl, h1, h2, ?_⟩
  intro s ev he
  unfold makeEvent at he
  split at he
  · exact Except.noConfusion he
  · exact Except.noConfusion he
  · split at he
    · exact Except.noConfusion he
    · cases he
      rfl

/-- Witness for c7_message_handling: a frame with one well-formed record and
one malformed record, processed from a fresh observer. -/
theorem c7_message_handling_witness :
    (({ emitted := [], terminated := none } : ObserverState).terminated = none)
    ∧ ((messageCallback parseFix []
          { emitted := [], terminated := none }
          ["\x7b\"eventType\":\"T\",\"eventData\":\"\x7b\\\"a\\\":1\x7d\"\x7d", "bad"]
          "tok1").1 = AckOrderTracker.add [] "tok1"
      ∧ (messageCallback parseFix []
          { emitted := [], terminated := none }
          ["\x7b\"eventType\":\"T\",\"eventData\":\"\x7b\\\"a\\\":1\x7d\"\x7d", "bad"]
          "tok1").2.emitted =
          [] ++ oksBeforeFirstError
            (["\x7b\"eventType\":\"T\",\"eventData\":\"\x7b\\\"a\\\":1\x7d\"\x7d", "bad"].map
              (fun s => makeEvent parseFix s "tok1"))
      ∧ (messageCallback parseFix []
          { emitted := [], terminated := none }
          ["\x7b\"eventType\":\"T\",\"eventData\":\"\x7b\\\"a\\\":1\x7d\"\x7d", "bad"]
          "tok1").2.terminated =
          firstDecodeError
            (["\x7b\"eventType\":\"T\",\"eventData\":\"\x7b\\\"a\\\":1\x7d\"\x7d", "bad"].map
              (fun s => makeEvent parseFix s "tok1"))
      ∧ (∀ (s : String) (ev : MadeEvent),
          makeEvent parseFix s "tok1" = Except.ok ev → ev.ack = "tok1")) :=
  ⟨rfl,
   c7_message_handling parseFix []
     { emitted := [], terminated := none }
     ["\x7b\"eventType\":\"T\",\"eventData\":\"\x7b\\\"a\\\":1\x7d\"\x7d", "bad"]
     "tok1" rfl⟩

theorem padBytes_mod (m : List Nat) : (padBytes m).length % blockSize = 0 := by
  simp [padBytes, blockSize]
  omega

theorem unpadBytes_padBytes (m : List Nat) : unpadBytes (padBytes m) = some m := by
  have hp1 : 1 ≤ blockSize - m.length % blockSize := by
    have : m.length % blockSize < blockSize := Nat.mod_lt _ (by simp [blockSize])
    omega
  obtain ⟨k, hk⟩ : ∃ k, blockSize - m.length % blockSize = k + 1 :=
    ⟨blockSize - m.length % blockSize - 1, by omega⟩
  have hlast : (padBytes m).getLast? = some (blockSize - m.length % blockSize) := by
    rw [padBytes, hk, List.replicate_succ', ← List.append_assoc, List.getLast?_concat]
  have hlen : (padBytes m).length = m.length + (blockSize - m.length % blockSize) := by
    simp [padBytes]
  rw [unpadBytes, hlast]
  dsimp only
  rw [if_pos ⟨hp1, by omega⟩]
  rw [hlen, Nat.add_sub_cancel, padBytes]
  rw [show m.length = (m.take m.length).length from by simp]
  simp

theorem chunksOf16_flatten_aux (n : Nat) :
    ∀ l : List Nat, l.length ≤ n → (chunksOf16 l).flatten = l := by
  induction n with
  | zero =>
    intro l h
    have hl : l = [] := List.eq_nil_of_length_eq_zero (Nat.le_zero.mp h)
    subst hl
    rw [chunksOf16]
    simp
  | succ n ih =>
    intro l h
    rw [chunksOf16]
    split
    · simp [*]
    · rename_i hl
      have hpos : 0 < l.length := List.length_pos.mpr hl
      rw [List.flatten_cons, ih (l.drop blockSize) (by simp [blockSize]; omega)]
      exact List.take_append_drop blockSize l

theorem chunksOf16_flatten (l : List Nat) : (chunksOf16 l).flatten = l :=
  chunksOf16_flatten_aux l.length l le_rfl

theorem chunksOf16_len_aux (n : Nat) :
    ∀ l : List Nat, l.length ≤ n → blockSize ∣ l.length →
      ∀ c ∈ chunksOf16 l, c.length = blockSize := by
  induction n with
  | zero =>
    intro l h _ c hc
    have hl : l = [] := List.eq_nil_of_length_eq_zero (Nat.le_zero.mp h)
    subst hl
    rw [chunksOf16] at hc
    simp at hc
  | succ n ih =>
    intro l h hd c hc
    rw [chunksOf16] at hc
    split at hc
    · simp at hc
    · rename_i hl
      have hpos : 0 < l.length := List.length_pos.mpr hl
      have h16 : blockSize ≤ l.length := Nat.le_of_dvd hpos hd
      rcases List.mem_cons.mp hc with hceq | hcm
      · subst hceq
        simp [List.length_take]
        omega
      · refine ih (l.drop blockSize) ?_ ?_ c hcm
        · simp [blockSize]
          simp [blockSize] at h h16
          omega
        · simp [List.length_drop]
          exact Nat.dvd_sub' hd dvd_rfl

theorem chunksOf16_of_blocks :
    ∀ bs : List (List Nat), (∀ b ∈ bs, b.length = blockSize) →
      chunksOf16 bs.flatten = bs := by
  intro bs
  induction bs with
  | nil =>
    intro _
    rw [chunksOf16]
    simp
  | cons b bs ih =>
    intro h
    have hb : b.length = blockSize := h b (List.mem_cons_self b bs)
    rw [chunksOf16]
    split
    · rename_i hnil
      exfalso
      have := congrArg List.length hnil
      rw [List.flatten_cons] at this
      simp [hb, blockSize] at this
    · rw [List.flatten_cons]
      congr 1
      · rw [← hb, List.take_left]
      · rw [← hb, List.drop_left]
        exact ih (fun x hx => h x (List.mem_cons_of_mem b hx))

theorem lxor_length (a b : List Nat) (h : a.length = b.length) :
    (lxor a b).length = a.length := by
  simp [lxor, h]

theorem lxor_cancel : ∀ a b : List Nat, a.length = b.length → lxor (lxor a b) b = a := by
  intro a
  induction a with
  | nil =>
    intro b h
    cases b with
    | nil => rfl
    | cons y ys => simp at h
  | cons x xs ih =>
    intro b h
    cases b with
    | nil => simp at h
    | cons y ys =>
      have h' : xs.length = ys.length := by simpa using h
      simp only [lxor, List.zipWith_cons_cons, List.cons.injEq]
      refine ⟨?_, ?_⟩
      · show x ^^^ y ^^^ y = x
        rw [Nat.xor_assoc, Nat.xor_self, Nat.xor_zero]
      · simpa [lxor] using ih ys h'

theorem cbcEnc_blocks_len (E : List Nat → List Nat → List Nat) (key : List Nat)
    (hE : ∀ b, (E key b).length = b.length) :
    ∀ (bs : List (List Nat)) (prev : List Nat), prev.length = blockSize →
      (∀ b ∈ bs, b.length = blockSize) →
      ∀ c ∈ cbcEnc E key prev bs, c.length = blockSize := by
  intro bs
  induction bs with
  | nil =>
    intro prev _ _ c hc
    simp [cbcEnc] at hc
  | cons b bs ih =>
    intro prev h1 h2 c hc
    have hb : b.length = blockSize := h2 b (List.mem_cons_self b bs)
    have hc1 : (E key (lxor b prev)).length = blockSize := by
      rw [hE, lxor_length b prev (by rw [hb, h1]), hb]
    simp only [cbcEnc] at hc
    rcases List.mem_cons.mp hc with hceq | hcm
    · rw [hceq]
      exact hc1
    · exact ih (E key (lxor b prev)) hc1 (fun x hx => h2 x (List.mem_cons_of_mem b hx)) c hcm

theorem cbcDec_cbcEnc (E D : List Nat → List Nat → List Nat) (key : List Nat)
    (hD : ∀ b, D key (E key b) = b) (hE : ∀ b, (E key b).length = b.length) :
    ∀ (bs : List (List Nat)) (prev : List Nat), prev.length = blockSize →
      (∀ b ∈ bs, b.length = blockSize) →
      cbcDec D key prev (cbcEnc E key prev bs) = bs := by
  intro bs
  induction bs with
  | nil => intro prev _ _; rfl
  | cons b bs ih =>
    intro prev h1 h2
    have hb : b.length = blockSize := h2 b (List.mem_cons_self b bs)
    have hc1 : (E key (lxor b prev)).length = blockSize := by
      rw [hE, lxor_length b prev (by rw [hb, h1]), hb]
    simp only [cbcEnc, cbcDec]
    rw [hD, lxor_cancel b prev (by rw [hb, h1]),
      ih (E key (lxor b prev)) hc1 (fun x hx => h2 x (List.mem_cons_of_mem b hx))]

theorem cipher_decipher (E D : List Nat → List Nat → List Nat) (key iv text : List Nat)
    (hD : ∀ b, D key (E key b) = b) (hE : ∀ b, (E key b).length = b.length)
    (hiv : iv.length = blockSize) :
    decipher D key iv (cipher E key iv text) = some text := by
  unfold cipher decipher
  have hpadblocks : ∀ c ∈ chunksOf16 (padBytes text), c.length = blockSize :=
    chunksOf16_len_aux (padBytes text).length (padBytes text) le_rfl
      (Nat.dvd_of_mod_eq_zero (padBytes_mod text))
  have hctblocks : ∀ c ∈ cbcEnc E key iv (chunksOf16 (padBytes text)), c.length = blockSize :=
    cbcEnc_blocks_len E key hE (chunksOf16 (padBytes text)) iv hiv hpadblocks
  rw [chunksOf16_of_blocks _ hctblocks,
    cbcDec_cbcEnc E D key hD hE (chunksOf16 (padBytes text)) iv hiv hpadblocks,
    chunksOf16_flatten]
  exact unpadBytes_padBytes text

/-- C9 (confirmed, codec modelled from the spec): the encryption codec
round-trips - for every plaintext, every block cipher pair (E, D) that
invert each other and preserve block length, and every 16-byte IV,
decipher(secret, iv, cipher(secret, iv, text)) recovers text; and an
envelope produced by encrypt(keyId, salt, text) under a key the store
resolves decrypts, with the same key, back to text exactly. -/
theorem c9_encryption_roundtrip (E D : List Nat → List Nat → List Nat)
    (store : String → Option (List Nat)) (keyId : String) (secret salt text : List Nat)
    (hD : ∀ b, D secret (E secret b) = b) (hE : ∀ b, (E secret b).length = b.length)
    (hsalt : salt.length = blockSize) (hstore : store keyId = some secret) :
    decipher D secret salt (cipher E secret salt text) = some text
    ∧ encrypt E store keyId salt text = Except.ok
        { encryptionKeyId := keyId, data := cipher E secret salt text, salt := some salt }
    ∧ decrypt D store
        { encryptionKeyId := keyId, data := cipher E secret salt text, salt := some salt } =
        Except.ok text := by
  have hround := cipher_decipher E D secret salt text hD hE hsalt
  refine ⟨hround, ?_, ?_⟩
  · simp [encrypt, findKey, hstore]
  · simp [decrypt, findKey, hstore, Option.getD, hround]

/-- Witness for c9_encryption_roundtrip: the identity block permutation, a
one-entry key store, the all-zero 16-byte salt and the plaintext bytes
1, 2, 3. -/
theorem c9_encryption_roundtrip_witness :
    ((List.replicate blockSize 0).length = blockSize
      ∧ (fun (_ : String) => some ([7] : List Nat)) "k" = some [7])
    ∧ (decipher (fun _ b => b) [7] (List.replicate blockSize 0)
          (cipher (fun _ b => b) [7] (List.replicate blockSize 0) [1, 2, 3]) = some [1, 2, 3]
      ∧ encrypt (fun _ b => b) (fun _ => some [7]) "k" (List.replicate blockSize 0) [1, 2, 3] =
          Except.ok
            { encryptionKeyId := "k",
              data := cipher (fun _ b => b) [7] (List.replicate blockSize 0) [1, 2, 3],
              salt := some (List.replicate blockSize 0) }
      ∧ decrypt (fun _ b => b) (fun _ => some [7])
            { encryptionKeyId := "k",
              data := cipher (fun _ b => b) [7] (List.replicate blockSize 0) [1, 2, 3],
              salt := some (List.replicate blockSize 0) } = Except.ok [1, 2, 3]) :=
  ⟨⟨by simp, rfl⟩,
   c9_encryption_roundtrip (fun _ b => b) (fun _ b => b) (fun _ => some [7]) "k" [7]
     (List.replicate blockSize 0) [1, 2, 3] (fun _ => rfl) (fun _ => rfl) (by simp) rfl⟩
